import Mathlib

/-!
Verification of the observable behaviour of `src/measure_pressure.py`, an
OPC UA pressure logger.  The script is embedded shallowly: the file system
is an association list from path to contents, console output is a list of
printed lines, sleeps are recorded as a list of durations, and the OPC UA
client library is modelled by environment data saying what each external
call returns (a successful connection or not, the value delivered by a node
read or an exception, whether a file write succeeds).  Each Python function
becomes a Lean function on this `World` state, translated clause by clause
from the source.
-/

namespace MeasurePressure

/-- A scalar value delivered by the OPC UA library (`node.get_value()`).
The script only ever observes its textual rendering (via the f-string in
`log_data`) and — in principle — its truthiness, so the value is modelled
by those two observations. -/
structure PyNum where
  repr : String
  truthy : Bool
deriving DecidableEq, Repr

/-- The observable state of one run: the file system (path ↦ contents),
the console transcript, the recorded sleep durations, and how many times
`client.disconnect()` has been called. -/
structure World where
  files : List (String × String)
  console : List String
  sleeps : List Nat
  disconnects : Nat
deriving DecidableEq, Repr

/-- The empty starting world. -/
def World.init : World := ⟨[], [], [], 0⟩

/-- Contents of a file, `none` when the file does not exist. -/
def getFile (files : List (String × String)) (path : String) : Option String :=
  match files with
  | [] => none
  | kv :: rest => if kv.1 = path then some kv.2 else getFile rest path

/-- Overwrite (or create) a file with the given contents. -/
def setFile (files : List (String × String)) (path content : String) :
    List (String × String) :=
  match files with
  | [] => [(path, content)]
  | kv :: rest =>
      if kv.1 = path then (path, content) :: rest else kv :: setFile rest path content

/-- `open(path, "a")` followed by `write(line)`: append to the file,
creating it (as empty) if it does not exist. -/
def appendFile (files : List (String × String)) (path line : String) :
    List (String × String) :=
  setFile files path ((getFile files path).getD "" ++ line)

/-- Python's `str.strip()` on the log entry (the entry ends in a newline,
so this removes exactly that trailing whitespace for newline-free fields). -/
def pyStrip (s : String) : String := s.trim

/-- The diagnostic printed by `connect_to_server` on failure
(`print(f"Error connecting to OPC UA server: \x7be\x7d")`). -/
def connectErrLine (e : String) : String := "Error connecting to OPC UA server: " ++ e

/-- The confirmation printed by `connect_to_server` on success. -/
def connectOkLine (url : String) : String := "Connected to OPC UA server at " ++ url

/--
`connect_to_server(server_url)` from the source: `client.connect()` either
succeeds (modelled by `ok = true`) — print a confirmation and return the
client — or raises an exception carrying message `err` — print a
diagnostic and return `None`.  The returned `Option Unit` stands for
`Client or None`.
-/
def connect_to_server (ok : Bool) (err : String) (server_url : String) (w : World) :
    Option Unit × World :=
  if ok then
    (some (), { w with console := w.console ++ [connectOkLine server_url] })
  else
    (none, { w with console := w.console ++ [connectErrLine err] })

/-- The diagnostic printed by `read_pressure` on failure. -/
def readErrLine (e : String) : String := "Error reading pressure data: " ++ e

/--
`read_pressure(client, node_id)` from the source: `client.get_node(node_id)
.get_value()` either delivers a value (`response = some v`) which is
returned, or raises an exception carrying message `errMsg`, in which case a
diagnostic is printed and `None` is returned — the exception never reaches
the caller.
-/
def read_pressure (response : Option PyNum) (errMsg : String) (w : World) :
    Option PyNum × World :=
  match response with
  | some v => (some v, w)
  | none => (none, { w with console := w.console ++ [readErrLine errMsg] })

/-- The log entry built by `log_data`:
`f"\x7btimestamp\x7d, \x7bpressure\x7d mbar\n"`. -/
def log_entry (timestamp pressureRepr : String) : String :=
  timestamp ++ ", " ++ pressureRepr ++ " mbar\n"

/-- The diagnostic printed by `log_data` on an I/O failure. -/
def writeErrLine (e : String) : String := "Error writing to log file: " ++ e

/--
`log_data(log_file, timestamp, pressure)` from the source: open the file in
append mode, write one formatted line, and echo `Logged: <entry stripped>`
to the console; any I/O exception (message `writeErr`, success modelled by
`writeOk`) is caught, a diagnostic is printed, and nothing is written.
-/
def log_data (writeOk : Bool) (writeErr : String)
    (log_file timestamp : String) (pressure : PyNum) (w : World) : World :=
  if writeOk then
    let entry := log_entry timestamp pressure.repr
    { w with
      files := appendFile w.files log_file entry
      console := w.console ++ ["Logged: " ++ pyStrip entry] }
  else
    { w with console := w.console ++ [writeErrLine writeErr] }

/-- A node of the server address space as the script observes it:
`str(node)` (its identity), `str(node.get_browse_name())`, and its
children in browse order. -/
structure BNode where
  ident : String
  browseName : String
  children : List BNode

/-- What the two library entry points used by `browse_nodes` return. -/
structure ServerSpace where
  root : BNode
  objects : BNode

/-- The lines printed for one child of the objects node and its own
children, as in the two nested `for` loops of `browse_nodes`. -/
def browseChildLines (obj : BNode) : List String :=
  ("Node: " ++ obj.ident ++ ", Browse Name: " ++ obj.browseName) ::
    obj.children.map (fun child =>
      "   â†³ Child Node: " ++ child.ident ++ ", Browse Name: " ++ child.browseName)

/--
`browse_nodes(client)` from the source, on a traversal in which no library
call raises: print the root node identity, the `Browsing Objects...`
banner, then for each immediate child of the objects node its identity and
browse name, and nested below it each grandchild's identity and browse
name.
-/
def browse_nodes (srv : ServerSpace) (w : World) : World :=
  { w with
    console := w.console ++
      (("Root Node: " ++ srv.root.ident) :: "Browsing Objects..." ::
        srv.objects.children.flatMap browseChildLines) }

/-! The four configuration constants of `__main__`. -/

def SERVER_URL : String := "opc.tcp://10.0.5.76:4840"

def PRESSURE_NODE_ID : String := "ns=1;s=G1_pressure"

def LOG_FILE : String := "pressure_log.txt"

def LOG_INTERVAL : Nat := 10

/-- The external events of one loop iteration: what the node read returns
(`none` = the library raised, with message `readErr`), the wall-clock
timestamp `strftime` produces, and whether the log-file write succeeds. -/
structure TickEnv where
  readResult : Option PyNum
  readErr : String
  timestamp : String
  writeOk : Bool
  writeErr : String

/--
One iteration of the `while True:` body of `__main__`: read the pressure;
if the result is not `None`, take a timestamp and log the value;
unconditionally sleep for `interval` seconds.
-/
def tick (log_file : String) (interval : Nat) (e : TickEnv) (w : World) : World :=
  let r := read_pressure e.readResult e.readErr w
  let w2 :=
    match r.1 with
    | some p => log_data e.writeOk e.writeErr log_file e.timestamp p r.2
    | none => r.2
  { w2 with sleeps := w2.sleeps ++ [interval] }

/-- Finitely many iterations of the loop body (the run is cut off by the
interrupt after `es.length` iterations). -/
def runTicks (es : List TickEnv) (w : World) : World :=
  es.foldl (fun wa e => tick LOG_FILE LOG_INTERVAL e wa) w

/-- How control leaves the `while True:` loop: the `KeyboardInterrupt`
raised by CTRL+C (caught by the `except` clause), or hypothetically any
other exception (not caught, but the `finally` clause still runs). -/
inductive LoopExit where
  | interrupt
  | otherEscape (msg : String)

/-- The line printed by the `except KeyboardInterrupt` handler. -/
def interruptLine : String := "\nUser stopped the script. Exiting..."

/-- The confirmation printed by the `finally` clause after
`client.disconnect()`. -/
def disconnectLine : String := "Disconnected from OPC UA server."

/--
`__main__` from the source: connect to the server; if the connection
failed, `exit()` at once (before the `try` block — no loop iteration, no
`finally` clause).  Otherwise run the loop until it is left via `ek`;
a `KeyboardInterrupt` is caught and acknowledged, any other escape is not;
either way, the `finally` clause releases the session and prints the
disconnect confirmation.
-/
def main_run (connectOk : Bool) (connectErr : String) (es : List TickEnv)
    (ek : LoopExit) (w : World) : World :=
  match connect_to_server connectOk connectErr SERVER_URL w with
  | (none, w1) => w1
  | (some _, w1) =>
      let w2 := runTicks es w1
      let w3 :=
        match ek with
        | .interrupt => { w2 with console := w2.console ++ [interruptLine] }
        | .otherEscape _ => w2
      { w3 with
        disconnects := w3.disconnects + 1
        console := w3.console ++ [disconnectLine] }

/-- Number of newline characters in a string — the line count of the
append-only log file, each entry contributing exactly one. -/
def newlineCount (s : String) : Nat := s.data.count '\n'

/-- Does `pat` occur as a contiguous run inside `hay`? -/
def hasSubList (pat : List Char) : List Char → Bool
  | [] => pat.isEmpty
  | c :: t => pat.isPrefixOf (c :: t) || hasSubList pat t

/-- Does the string `pat` occur inside `hay`? -/
def strContainsSub (hay pat : String) : Bool := hasSubList pat.data hay.data

/-! ### Helper lemmas about the file-system model -/

theorem getFile_setFile_same (fs : List (String × String)) (p c : String) :
    getFile (setFile fs p c) p = some c := by
  induction fs with
  | nil => simp [setFile, getFile]
  | cons kv rest ih =>
      by_cases h : kv.1 = p
      · simp [setFile, getFile, h]
      · simp [setFile, getFile, h, ih]

theorem getFile_setFile_ne (fs : List (String × String)) (p c q : String)
    (hq : q ≠ p) : getFile (setFile fs p c) q = getFile fs q := by
  induction fs with
  | nil => simp [setFile, getFile, Ne.symm hq]
  | cons kv rest ih =>
      by_cases h : kv.1 = p
      · simp [setFile, getFile, h, Ne.symm hq]
      · simp [setFile, getFile, h, ih]

theorem getFile_appendFile_same (fs : List (String × String)) (p line : String) :
    getFile (appendFile fs p line) p
      = some ((getFile fs p).getD "" ++ line) := by
  simp [appendFile, getFile_setFile_same]

theorem getFile_appendFile_ne (fs : List (String × String)) (p line q : String)
    (hq : q ≠ p) : getFile (appendFile fs p line) q = getFile fs q := by
  simp [appendFile, getFile_setFile_ne _ _ _ _ hq]

/-- The log entry written by `log_data`, with the terminating newline split
off: the line proper followed by exactly one newline character. -/
theorem log_entry_eq (t r : String) :
    log_entry t r = (t ++ ", " ++ r ++ " mbar") ++ "\n" := by
  simp [log_entry, String.append_assoc]

/-!
### C1 — log line format
-/

/-- C1: every invocation of `log_data` whose write succeeds appends to the
log file exactly the line `t, v mbar` followed by a single newline, and in
particular for timestamp `2025-02-18 10:00:00` and value rendering
`1.23e-3` the appended entry is exactly
`2025-02-18 10:00:00, 1.23e-3 mbar` plus the newline. -/
theorem C1_log_line_format (writeErr log_file t : String) (v : PyNum) (w : World) :
    getFile (log_data true writeErr log_file t v w).files log_file
      = some ((getFile w.files log_file).getD ""
          ++ ((t ++ ", " ++ v.repr ++ " mbar") ++ "\n"))
    ∧ log_entry "2025-02-18 10:00:00" "1.23e-3"
      = "2025-02-18 10:00:00, 1.23e-3 mbar" ++ "\n" := by
  constructor
  · simp [log_data, getFile_appendFile_same, log_entry_eq]
  · rfl

/-!
### C4 — reader contract
-/

/-- C4: `read_pressure` returns the node's value on success; on any failure
it prints a diagnostic with the failure detail, returns `None`, and the
failure does not propagate (the function still returns normally, with the
world changed only by the console line). -/
theorem C4_read_pressure_contract (errMsg : String) (w : World) :
    (∀ v : PyNum, read_pressure (some v) errMsg w = (some v, w))
    ∧ read_pressure none errMsg w
        = (none, { w with console := w.console ++ [readErrLine errMsg] }) := by
  constructor
  · intro v; rfl
  · rfl

/-!
### C5 — unconditional fixed sleep
-/

/-- C5: every loop iteration, whether the read succeeded or failed and
whether the write succeeded or failed, ends with a sleep of the fixed
configured interval, and that interval is 10 seconds in the reference
configuration. -/
theorem C5_unconditional_sleep (e : TickEnv) (w : World) (lf : String) :
    (tick lf LOG_INTERVAL e w).sleeps = w.sleeps ++ [10]
    ∧ LOG_INTERVAL = 10 := by
  refine ⟨?_, rfl⟩
  rcases h : e.readResult with _ | v
  · simp [tick, read_pressure, h, LOG_INTERVAL]
  · cases hw : e.writeOk <;>
      simp [tick, read_pressure, log_data, h, hw, LOG_INTERVAL]

/-! ### Per-iteration lemmas about `tick` -/

/-- A failed read: the iteration only prints the diagnostic and sleeps. -/
theorem tick_read_fail (lf : String) (i : Nat) (e : TickEnv) (w : World)
    (h : e.readResult = none) :
    tick lf i e w
      = { w with
          console := w.console ++ [readErrLine e.readErr]
          sleeps := w.sleeps ++ [i] } := by
  simp [tick, read_pressure, h]

/-- A successful read and write: the iteration appends the log entry,
echoes it, and sleeps. -/
theorem tick_success (lf : String) (i : Nat) (e : TickEnv) (v : PyNum) (w : World)
    (hr : e.readResult = some v) (hw : e.writeOk = true) :
    tick lf i e w
      = { w with
          files := appendFile w.files lf (log_entry e.timestamp v.repr)
          console := w.console
            ++ ["Logged: " ++ pyStrip (log_entry e.timestamp v.repr)]
          sleeps := w.sleeps ++ [i] } := by
  simp [tick, read_pressure, log_data, hr, hw]

/-- A successful read whose write fails: the iteration only prints the
I/O diagnostic and sleeps. -/
theorem tick_write_fail (lf : String) (i : Nat) (e : TickEnv) (v : PyNum) (w : World)
    (hr : e.readResult = some v) (hw : e.writeOk = false) :
    tick lf i e w
      = { w with
          console := w.console ++ [writeErrLine e.writeErr]
          sleeps := w.sleeps ++ [i] } := by
  simp [tick, read_pressure, log_data, hr, hw]

/-!
### C2 — connection failure terminates before the loop
-/

/-- C2: when the connection fails, `connect_to_server` prints a diagnostic
carrying the failure detail and `__main__` exits at once: the resulting
world differs from the initial one only by that single console line — no
file is touched (no log line is ever written), no iteration runs, no sleep
happens, and the session is never released. -/
theorem C2_connect_failure_no_log (connectErr : String) (es : List TickEnv)
    (ek : LoopExit) (w : World) :
    main_run false connectErr es ek w
      = { w with console := w.console ++ [connectErrLine connectErr] } := by
  simp [main_run, connect_to_server]

/-!
### C3 — failed reads skip logging and the loop retries forever
-/

/-- C3: over any stretch of iterations in which every read fails, the file
system is untouched (no line is appended) and every single iteration still
runs and records its full fixed-interval sleep — the loop never terminates
early, with no backoff and no cap on consecutive failures. -/
theorem C3_failed_read_skips_and_continues (es : List TickEnv) (w : World)
    (hall : ∀ e ∈ es, e.readResult = none) :
    (runTicks es w).files = w.files
    ∧ (runTicks es w).sleeps
        = w.sleeps ++ List.replicate es.length LOG_INTERVAL := by
  induction es generalizing w with
  | nil => simp [runTicks]
  | cons e rest ih =>
      have he : e.readResult = none := hall e (by simp)
      have hrest : ∀ x ∈ rest, x.readResult = none :=
        fun x hx => hall x (by simp [hx])
      have hstep : runTicks (e :: rest) w
          = runTicks rest (tick LOG_FILE LOG_INTERVAL e w) := rfl
      obtain ⟨h1, h2⟩ := ih (tick LOG_FILE LOG_INTERVAL e w) hrest
      rw [hstep]
      rw [tick_read_fail _ _ _ _ he] at h1 h2 ⊢
      constructor
      · rw [h1]
      · rw [h2]; simp [List.replicate_succ]

/-- A reference iteration environment in which the read fails. -/
def failTick : TickEnv :=
  { readResult := none
    readErr := "Connection timed out"
    timestamp := "2025-02-18 10:00:00"
    writeOk := true
    writeErr := "" }

theorem C3_failed_read_skips_and_continues_witness :
    (runTicks [failTick, failTick, failTick] World.init).files = World.init.files
    ∧ (runTicks [failTick, failTick, failTick] World.init).sleeps
        = World.init.sleeps ++ List.replicate 3 LOG_INTERVAL :=
  C3_failed_read_skips_and_continues [failTick, failTick, failTick] World.init
    (by decide)

/-!
### C8 — write failure drops the single reading, loop continues
-/

/-- C8: when the log write fails, the iteration prints the I/O diagnostic
and nothing more: the file system is untouched and the world holds no
queued or retried measurement (the reading is simply lost), while the
sleep is still recorded, so the driver loop continues normally. -/
theorem C8_write_failure_drops (lf : String) (e : TickEnv) (v : PyNum) (w : World)
    (hr : e.readResult = some v) (hw : e.writeOk = false) :
    log_data false e.writeErr lf e.timestamp v w
      = { w with console := w.console ++ [writeErrLine e.writeErr] }
    ∧ tick lf LOG_INTERVAL e w
      = { w with
          console := w.console ++ [writeErrLine e.writeErr]
          sleeps := w.sleeps ++ [LOG_INTERVAL] } := by
  exact ⟨by simp [log_data], tick_write_fail _ _ _ _ _ hr hw⟩

/-- A reference iteration environment in which the read succeeds but the
write fails. -/
def badWriteTick : TickEnv :=
  { readResult := some ⟨"1.23e-3", true⟩
    readErr := ""
    timestamp := "2025-02-18 10:00:00"
    writeOk := false
    writeErr := "Permission denied" }

theorem C8_write_failure_drops_witness :
    log_data false badWriteTick.writeErr LOG_FILE badWriteTick.timestamp
        ⟨"1.23e-3", true⟩ World.init
      = { World.init with
          console := World.init.console ++ [writeErrLine badWriteTick.writeErr] }
    ∧ tick LOG_FILE LOG_INTERVAL badWriteTick World.init
      = { World.init with
          console := World.init.console ++ [writeErrLine badWriteTick.writeErr]
          sleeps := World.init.sleeps ++ [LOG_INTERVAL] } :=
  C8_write_failure_drops LOG_FILE badWriteTick ⟨"1.23e-3", true⟩ World.init rfl rfl

/-!
### C10 — the skip test is `is not None`, not truthiness
-/

/-- C10: every value the reader returns that is not `None` is logged —
the driver's test matches on the option only, so the conclusion holds for
every `v` whatever its truthiness, including falsy renderings such as
`0` or `0.0`. -/
theorem C10_falsy_values_logged (lf : String) (e : TickEnv) (v : PyNum) (w : World)
    (hr : e.readResult = some v) (hw : e.writeOk = true) :
    getFile (tick lf LOG_INTERVAL e w).files lf
      = some ((getFile w.files lf).getD "" ++ log_entry e.timestamp v.repr) := by
  rw [tick_success _ _ _ _ _ hr hw]
  exact getFile_appendFile_same _ _ _

/-- A reference iteration environment delivering the falsy reading `0.0`. -/
def zeroTick : TickEnv :=
  { readResult := some ⟨"0.0", false⟩
    readErr := ""
    timestamp := "2025-02-18 10:00:00"
    writeOk := true
    writeErr := "" }

theorem C10_falsy_values_logged_witness :
    (PyNum.mk "0.0" false).truthy = false
    ∧ getFile (tick LOG_FILE LOG_INTERVAL zeroTick World.init).files LOG_FILE
        = some ((getFile World.init.files LOG_FILE).getD ""
            ++ log_entry zeroTick.timestamp "0.0") :=
  ⟨rfl, C10_falsy_values_logged LOG_FILE zeroTick ⟨"0.0", false⟩ World.init rfl rfl⟩

/-! ### Newline counting, for the log file's line count -/

theorem newlineCount_append (a b : String) :
    newlineCount (a ++ b) = newlineCount a + newlineCount b := by
  simp [newlineCount, String.data_append, List.count_append]

/-- A log entry whose timestamp and value rendering are newline-free
contributes exactly one line. -/
theorem newlineCount_log_entry (t r : String)
    (ht : '\n' ∉ t.data) (hr : '\n' ∉ r.data) :
    newlineCount (log_entry t r) = 1 := by
  have h1 : newlineCount t = 0 := List.count_eq_zero.mpr ht
  have h2 : newlineCount r = 0 := List.count_eq_zero.mpr hr
  have h3 : newlineCount ", " = 0 := by decide
  have h4 : newlineCount " mbar\n" = 1 := by decide
  simp [log_entry, newlineCount_append, h1, h2, h3, h4]

/-- An all-successful stretch of iterations grows the log file by exactly
one line per iteration. -/
theorem runTicks_success_newlineCount (es : List TickEnv) (w : World)
    (hall : ∀ e ∈ es, e.writeOk = true ∧ '\n' ∉ e.timestamp.data ∧
      ∃ u : PyNum, e.readResult = some u ∧ '\n' ∉ u.repr.data) :
    newlineCount ((getFile (runTicks es w).files LOG_FILE).getD "")
      = newlineCount ((getFile w.files LOG_FILE).getD "") + es.length := by
  induction es generalizing w with
  | nil => simp [runTicks]
  | cons e rest ih =>
      obtain ⟨hw, ht, u, hr, hu⟩ := hall e (by simp)
      have hrest : ∀ x ∈ rest, x.writeOk = true ∧ '\n' ∉ x.timestamp.data ∧
          ∃ u : PyNum, x.readResult = some u ∧ '\n' ∉ u.repr.data :=
        fun x hx => hall x (by simp [hx])
      have hstep : runTicks (e :: rest) w
          = runTicks rest (tick LOG_FILE LOG_INTERVAL e w) := rfl
      rw [hstep, ih _ hrest, tick_success _ _ _ _ _ hr hw]
      have happ := getFile_appendFile_same w.files LOG_FILE (log_entry e.timestamp u.repr)
      simp only [happ, Option.getD_some]
      rw [newlineCount_append, newlineCount_log_entry _ _ ht hu]
      simp only [List.length_cons]
      omega

/-!
### C7 — append mode: create if absent, never truncate, one line per tick
-/

/-- C7: a successful `log_data` call creates the log file with exactly the
entry when it did not exist, otherwise appends the entry after the previous
contents unchanged, and touches no other file; consequently, after any
stretch of N all-successful iterations the log file's line count is N plus
whatever it was before. -/
theorem C7_append_only (writeErr lf t q : String) (v : PyNum) (w : World)
    (hq : q ≠ lf) :
    (getFile w.files lf = none →
      getFile (log_data true writeErr lf t v w).files lf
        = some (log_entry t v.repr))
    ∧ (∀ c, getFile w.files lf = some c →
        getFile (log_data true writeErr lf t v w).files lf
          = some (c ++ log_entry t v.repr))
    ∧ getFile (log_data true writeErr lf t v w).files q = getFile w.files q
    ∧ ∀ es : List TickEnv,
        (∀ e ∈ es, e.writeOk = true ∧ '\n' ∉ e.timestamp.data ∧
          ∃ u : PyNum, e.readResult = some u ∧ '\n' ∉ u.repr.data) →
        newlineCount ((getFile (runTicks es w).files LOG_FILE).getD "")
          = newlineCount ((getFile w.files LOG_FILE).getD "") + es.length := by
  refine ⟨?_, ?_, ?_, ?_⟩
  · intro hnone
    simp [log_data, getFile_appendFile_same, hnone]
  · intro c hc
    simp [log_data, getFile_appendFile_same, hc]
  · simp [log_data, getFile_appendFile_ne _ _ _ _ hq]
  · exact fun es hall => runTicks_success_newlineCount es w hall

/-- A reference iteration environment with a successful read and write. -/
def goodTick : TickEnv :=
  { readResult := some ⟨"1.23e-3", true⟩
    readErr := ""
    timestamp := "2025-02-18 10:00:00"
    writeOk := true
    writeErr := "" }

theorem C7_append_only_witness :
    "other.txt" ≠ LOG_FILE
    ∧ ((getFile World.init.files LOG_FILE = none →
        getFile (log_data true "" LOG_FILE "2025-02-18 10:00:00"
            ⟨"1.23e-3", true⟩ World.init).files LOG_FILE
          = some (log_entry "2025-02-18 10:00:00" "1.23e-3"))
      ∧ (∀ c, getFile World.init.files LOG_FILE = some c →
          getFile (log_data true "" LOG_FILE "2025-02-18 10:00:00"
              ⟨"1.23e-3", true⟩ World.init).files LOG_FILE
            = some (c ++ log_entry "2025-02-18 10:00:00" "1.23e-3"))
      ∧ getFile (log_data true "" LOG_FILE "2025-02-18 10:00:00"
            ⟨"1.23e-3", true⟩ World.init).files "other.txt"
          = getFile World.init.files "other.txt"
      ∧ ∀ es : List TickEnv,
          (∀ e ∈ es, e.writeOk = true ∧ '\n' ∉ e.timestamp.data ∧
            ∃ u : PyNum, e.readResult = some u ∧ '\n' ∉ u.repr.data) →
          newlineCount ((getFile (runTicks es World.init).files LOG_FILE).getD "")
            = newlineCount ((getFile World.init.files LOG_FILE).getD "")
              + es.length) :=
  ⟨by decide,
   C7_append_only "" LOG_FILE "2025-02-18 10:00:00" "other.txt"
     ⟨"1.23e-3", true⟩ World.init (by decide)⟩

/-! ### No loop-body message collides with the disconnect confirmation -/

theorem append_ne_of_take (p b c : String)
    (h : c.data.take p.data.length ≠ p.data) : p ++ b ≠ c := by
  intro hc
  apply h
  rw [← hc, String.data_append, List.take_left]

theorem readErrLine_ne_disconnect (m : String) : readErrLine m ≠ disconnectLine := by
  unfold readErrLine
  exact append_ne_of_take _ _ _ (by decide)

theorem writeErrLine_ne_disconnect (m : String) : writeErrLine m ≠ disconnectLine := by
  unfold writeErrLine
  exact append_ne_of_take _ _ _ (by decide)

theorem loggedLine_ne_disconnect (m : String) :
    "Logged: " ++ m ≠ disconnectLine :=
  append_ne_of_take _ _ _ (by decide)

theorem connectOkLine_ne_disconnect (url : String) :
    connectOkLine url ≠ disconnectLine := by
  unfold connectOkLine
  exact append_ne_of_take _ _ _ (by decide)

theorem interruptLine_ne_disconnect : interruptLine ≠ disconnectLine := by
  decide

/-- Appending a console line other than the disconnect confirmation leaves
the confirmation's occurrence count unchanged. -/
theorem count_append_single_ne (l : List String) (m : String)
    (hm : m ≠ disconnectLine) :
    (l ++ [m]).count disconnectLine = l.count disconnectLine := by
  have h0 : List.count disconnectLine [m] = 0 := by
    rw [List.count_eq_zero]
    simp [Ne.symm hm]
  simp [List.count_append, h0]

/-- No loop iteration ever prints the disconnect confirmation. -/
theorem tick_count_disconnectLine (lf : String) (i : Nat) (e : TickEnv) (w : World) :
    (tick lf i e w).console.count disconnectLine
      = w.console.count disconnectLine := by
  rcases hr : e.readResult with _ | v
  · rw [tick_read_fail _ _ _ _ hr]
    exact count_append_single_ne _ _ (readErrLine_ne_disconnect _)
  · cases hw : e.writeOk
    · rw [tick_write_fail _ _ _ _ _ hr hw]
      exact count_append_single_ne _ _ (writeErrLine_ne_disconnect _)
    · rw [tick_success _ _ _ _ _ hr hw]
      exact count_append_single_ne _ _ (loggedLine_ne_disconnect _)

theorem runTicks_count_disconnectLine (es : List TickEnv) (w : World) :
    (runTicks es w).console.count disconnectLine
      = w.console.count disconnectLine := by
  induction es generalizing w with
  | nil => rfl
  | cons e rest ih =>
      have hstep : runTicks (e :: rest) w
          = runTicks rest (tick LOG_FILE LOG_INTERVAL e w) := rfl
      rw [hstep, ih, tick_count_disconnectLine]

/-- No loop iteration releases the session. -/
theorem tick_disconnects (lf : String) (i : Nat) (e : TickEnv) (w : World) :
    (tick lf i e w).disconnects = w.disconnects := by
  rcases hr : e.readResult with _ | v
  · rw [tick_read_fail _ _ _ _ hr]
  · cases hw : e.writeOk
    · rw [tick_write_fail _ _ _ _ _ hr hw]
    · rw [tick_success _ _ _ _ _ hr hw]

theorem runTicks_disconnects (es : List TickEnv) (w : World) :
    (runTicks es w).disconnects = w.disconnects := by
  induction es generalizing w with
  | nil => rfl
  | cons e rest ih =>
      have hstep : runTicks (e :: rest) w
          = runTicks rest (tick LOG_FILE LOG_INTERVAL e w) := rfl
      rw [hstep, ih, tick_disconnects]

/-!
### C6 — the session is released exactly once, confirmation printed once
-/

/-- C6: on every run that enters the polling loop (the connection
succeeded), however the loop is left — the keyboard interrupt or any other
escape — `client.disconnect()` is called exactly once and the disconnect
confirmation appears exactly once more in the console transcript. -/
theorem C6_disconnect_once (connectErr : String) (es : List TickEnv)
    (ek : LoopExit) (w : World) :
    (main_run true connectErr es ek w).disconnects = w.disconnects + 1
    ∧ (main_run true connectErr es ek w).console.count disconnectLine
        = w.console.count disconnectLine + 1 := by
  have hconn : (w.console ++ [connectOkLine SERVER_URL]).count disconnectLine
      = w.console.count disconnectLine :=
    count_append_single_ne _ _ (connectOkLine_ne_disconnect _)
  have hd1 : List.count disconnectLine [disconnectLine] = 1 := by simp
  cases ek with
  | interrupt =>
      constructor
      · simp only [main_run, connect_to_server, if_true]
        simp [runTicks_disconnects]
      · simp only [main_run, connect_to_server, if_true]
        simp [List.count_append, hd1, runTicks_count_disconnectLine, hconn,
          count_append_single_ne _ _ interruptLine_ne_disconnect]
        decide
  | otherEscape msg =>
      constructor
      · simp only [main_run, connect_to_server, if_true]
        simp [runTicks_disconnects]
      · simp only [main_run, connect_to_server, if_true]
        simp [List.count_append, hd1, runTicks_count_disconnectLine, hconn]

/-!
### C9 — browsing with zero children
-/

/-- A concrete server address space whose objects container has zero
children. -/
def c9Space : ServerSpace :=
  { root := { ident := "i=84", browseName := "0:Root", children := [] }
    objects := { ident := "i=85", browseName := "0:Objects", children := [] } }

/-- C9 counterexample: on a concrete session whose objects container has
zero children, `browse_nodes` prints exactly the root identity line and the
constant `Browsing Objects...` banner — and the objects node's identity
(`i=85`) occurs in neither printed line, so the claim that the root *and
objects* identities are printed is false. -/
theorem C9_browse_counterexample :
    c9Space.objects.children = []
    ∧ (browse_nodes c9Space World.init).console
        = ["Root Node: i=84", "Browsing Objects..."]
    ∧ (∀ line ∈ (browse_nodes c9Space World.init).console,
        strContainsSub line c9Space.objects.ident = false) := by
  refine ⟨rfl, rfl, ?_⟩
  decide

/-- C9 (amended): when the objects container has zero children,
`browse_nodes` prints the root identity line and the fixed
`Browsing Objects...` banner and nothing else, without error — the console
receives exactly those two lines. -/
theorem C9_zero_children_browse (srv : ServerSpace) (w : World)
    (h : srv.objects.children = []) :
    (browse_nodes srv w).console
      = w.console ++ ["Root Node: " ++ srv.root.ident, "Browsing Objects..."] := by
  simp [browse_nodes, h]

theorem C9_zero_children_browse_witness :
    c9Space.objects.children = []
    ∧ (browse_nodes c9Space World.init).console
        = World.init.console
          ++ ["Root Node: " ++ c9Space.root.ident, "Browsing Objects..."] :=
  ⟨rfl, C9_zero_children_browse c9Space World.init rfl⟩

end MeasurePressure
